import Mathlib

/-!
Verification of the healthz dependency health-aggregation core.
The definitions below are a shallow embedding of the Go sources:
probe-group bit masks, the per-group outcome buckets (healthResult),
the merge step of one poll cycle, the query engine, the configuration
options and the HTTP handler adapter.
-/

namespace Healthz

/-- Model of a Go error value by its message text; a Go variable of
type error is an `Option GoError`, with `none` standing for nil. -/
abbrev GoError := String

/-- Sentinel outcome recorded before the first poll
(errNoYetChecked in the source). -/
def errNoYetChecked : GoError := "not yet checked"

/-- Error returned by WithTargets on an empty target list
(errMissTargets, the MissingTargets condition of the spec). -/
def errMissTargets : GoError := "miss targets"

/-- Error returned by validate on a mask with bits outside the four
defined flags (errMissGroup, the InvalidGroup condition of the spec). -/
def errMissGroup : GoError := "miss group, allow only combinations from 1, 2, 4"

/-- Error returned by validate on a zero mask
(errEmptyGroup, the EmptyGroup condition of the spec). -/
def errEmptyGroup : GoError := "empty probe group"

/-- Model of errors.Join from the Go standard library: nil inputs are
discarded; the result is nil when every input is nil, otherwise a single
error whose message is the newline join of the non-nil messages. -/
def goJoin (list : List (Option GoError)) : Option GoError :=
  let es := list.filterMap id
  if es.isEmpty then none else some (String.intercalate "\n" es)

/-- Bit mask of verification groups (ProbeGroup, a uint8 in the source).
Modelled as Nat; every operation used (land, lor, equality with zero)
agrees with uint8 arithmetic on values below 256, and the defined masks
are all below 16. -/
abbrev ProbeGroup := Nat

def GroupCommon : ProbeGroup := 1

def GroupStartup : ProbeGroup := 2

def GroupLive : ProbeGroup := 4

def GroupReady : ProbeGroup := 8

def AllGroups : ProbeGroup := GroupCommon ||| GroupStartup ||| GroupLive ||| GroupReady

/-- Embedding of ProbeGroup.validate: rejects the zero mask with
errEmptyGroup and any mask with bits outside AllGroups with errMissGroup. -/
def ProbeGroup.validate (pg : ProbeGroup) : Option GoError :=
  if pg = 0 then some errEmptyGroup
  else if pg &&& AllGroups ≠ pg then some errMissGroup
  else none

/-- Snapshot of the latest poll cycle: one ordered outcome bucket per
tracked group (healthResult in the source). -/
structure healthResult where
  startUp : List (Option GoError)
  live : List (Option GoError)
  ready : List (Option GoError)
  deriving Repr, DecidableEq

/-- Embedding of newHealthResult: each bucket holds exactly the
not-yet-checked sentinel. -/
def newHealthResult : healthResult :=
  { startUp := [some errNoYetChecked]
    live := [some errNoYetChecked]
    ready := [some errNoYetChecked] }

/-- The zero value healthResult{} that Inspector.check starts a poll
cycle from: all three buckets empty. -/
def emptyHealthResult : healthResult := { startUp := [], live := [], ready := [] }

/-- A checkable dependency, modelled by the fixed outcome of its probe
together with its two classification labels. -/
structure HealthCheckable where
  healthErr : Option GoError
  scope : String
  dest : String
  deriving Repr, DecidableEq

/-- Container pairing a service with its group bit mask
(HealthCheckTarget in the source). -/
structure HealthCheckTarget where
  Service : HealthCheckable
  Groups : ProbeGroup
  deriving Repr, DecidableEq

/-- One check outcome paired with its originating target
(serviceCheckResult in the source). -/
structure serviceCheckResult where
  target : HealthCheckTarget
  err : Option GoError
  deriving Repr, DecidableEq

/-- Embedding of healthResult.add: the outcome is appended to every
bucket whose bit is set in the target group mask. -/
def healthResult.add (hr : healthResult) (res : serviceCheckResult) : healthResult :=
  let hr1 :=
    if res.target.Groups &&& GroupStartup ≠ 0 then
      { hr with startUp := hr.startUp ++ [res.err] }
    else hr
  let hr2 :=
    if res.target.Groups &&& GroupLive ≠ 0 then
      { hr1 with live := hr1.live ++ [res.err] }
    else hr1
  if res.target.Groups &&& GroupReady ≠ 0 then
    { hr2 with ready := hr2.ready ++ [res.err] }
  else hr2

/-- Embedding of accureError: errors.Join over the whole bucket. -/
def accureError (list : List (Option GoError)) : Option GoError :=
  goJoin list

/-- Loop of accureNoError: reports whether some entry is nil, with the
early return of the source loop. -/
def hasNilEntry : List (Option GoError) → Bool
  | [] => false
  | none :: _ => true
  | some _ :: rest => hasNilEntry rest

/-- Embedding of accureNoError: nil as soon as one entry is nil,
otherwise errors.Join over the whole bucket. -/
def accureNoError (list : List (Option GoError)) : Option GoError :=
  if hasNilEntry list then none else goJoin list

/-- Bucket selection switch of healthResult.health, named so that
theorems can speak about the selected bucket. -/
def healthResult.selected (hr : healthResult) (group : ProbeGroup) : List (Option GoError) :=
  if group &&& GroupLive ≠ 0 then hr.live
  else if group &&& GroupReady ≠ 0 then hr.ready
  else if group &&& GroupStartup ≠ 0 then hr.startUp
  else []

/-- Embedding of healthResult.health: select one bucket by the fixed
Live, Ready, Startup priority (an unmatched mask leaves the nil slice),
then aggregate under the requested policy. -/
def healthResult.health (hr : healthResult) (group : ProbeGroup) (needAllHealthy : Bool) :
    Option GoError :=
  let list :=
    if group &&& GroupLive ≠ 0 then hr.live
    else if group &&& GroupReady ≠ 0 then hr.ready
    else if group &&& GroupStartup ≠ 0 then hr.startUp
    else []
  if needAllHealthy then accureError list else accureNoError list

/-- Inspector state relevant to the claims: the target registry, the
configured period and the currently published snapshot. -/
structure Inspector where
  targets : List HealthCheckTarget
  checkPeriod : Nat
  data : healthResult
  deriving Repr, DecidableEq

def defCheckPeriod : Nat := 15

/-- Embedding of New: stores the targets and publishes the sentinel
snapshot newHealthResult. -/
def New (targets : List HealthCheckTarget) : Inspector :=
  { targets := targets, checkPeriod := defCheckPeriod, data := newHealthResult }

/-- Embedding of Inspector.CheckGroup: read the current snapshot and
query it; no validation of the mask happens here. -/
def Inspector.CheckGroup (i : Inspector) (group : ProbeGroup) (needAllHealthy : Bool) :
    Option GoError :=
  i.data.health group needAllHealthy

/-- Validation loop of WithTargets: the first failing mask decides. -/
def validateTargets : List HealthCheckTarget → Option GoError
  | [] => none
  | t :: rest =>
    match ProbeGroup.validate t.Groups with
    | some e => some e
    | none => validateTargets rest

/-- Embedding of the WithTargets option: the returned pair is the
inspector after the call (unchanged on failure) and the Go error. -/
def WithTargets (targets : List HealthCheckTarget) (i : Inspector) :
    Inspector × Option GoError :=
  if targets.isEmpty then (i, some errMissTargets)
  else
    match validateTargets targets with
    | some e => (i, some e)
    | none => ({ i with targets := targets }, none)

def StatusOK : Nat := 200

def StatusServiceUnavailable : Nat := 503

/-- Embedding of DefResponseProcessor. -/
def DefResponseProcessor (err : Option GoError) : String :=
  if err.isSome then "Unhealthy" else "OK"

/-- Embedding of Inspector.HealthHandler: the produced handler is
modelled by the status and body pair it writes for a request. -/
def Inspector.HealthHandler (i : Inspector) (group : ProbeGroup) (needAllHealthy : Bool)
    (toResponse : Option (Option GoError → String)) : Nat × String :=
  let f :=
    match toResponse with
    | none => DefResponseProcessor
    | some g => g
  let e := i.CheckGroup group needAllHealthy
  if e.isSome then (StatusOK, f e) else (StatusServiceUnavailable, f none)

/-- Merge phase of one poll cycle: fold the outcomes into the zero
value snapshot, as the result loop of Inspector.check does. -/
def checkMerge (results : List serviceCheckResult) : healthResult :=
  List.foldl healthResult.add emptyHealthResult results

/-- Embedding of Inspector.check: probe every target, merge the
outcomes into a fresh snapshot and publish it. The concurrent
completion order is modelled by the registration-order schedule. -/
def Inspector.check (i : Inspector) : Inspector :=
  { i with data := checkMerge (i.targets.map (fun t => { target := t, err := t.Service.healthErr })) }

/-- Spec wording for the all-healthy policy: nil exactly when every
outcome is nil, otherwise the aggregated error joining every non-nil
outcome (goJoin discards the nil entries). -/
def querySpecAll (list : List (Option GoError)) : Option GoError :=
  if list.all (fun e => e.isNone) then none else goJoin list

/-- Spec wording for the at-least-one-healthy policy: nil as soon as
one outcome is nil, otherwise the aggregated error joining all the
outcomes (all of them non-nil in that branch). -/
def querySpecAny (list : List (Option GoError)) : Option GoError :=
  if list.any (fun e => e.isNone) then none else goJoin list

/-- Contribution of a result list to the bucket of mask B: the outcomes
of exactly those results whose target mask intersects B. -/
def bucketOf (B : ProbeGroup) (results : List serviceCheckResult) : List (Option GoError) :=
  (results.filter (fun r => r.target.Groups &&& B != 0)).map serviceCheckResult.err

/-- A healthy target registered in the Ready group only. -/
def readyTarget : HealthCheckTarget :=
  { Service := { healthErr := none, scope := "database", dest := "db-1" }, Groups := GroupReady }

theorem lor_eq_zero_iff (a b : Nat) : a ||| b = 0 ↔ a = 0 ∧ b = 0 := by
  constructor
  · intro h
    constructor <;> apply Nat.eq_of_testBit_eq <;> intro i <;>
      have hi := congrArg (fun x => Nat.testBit x i) h <;>
      simp [Nat.testBit_or] at hi <;> simp [hi]
  · rintro ⟨rfl, rfl⟩
    rfl

theorem and_or3_eq_zero_iff (g a b c : Nat) :
    g &&& (a ||| b ||| c) = 0 ↔ g &&& a = 0 ∧ g &&& b = 0 ∧ g &&& c = 0 := by
  rw [Nat.and_or_distrib_left, Nat.and_or_distrib_left, lor_eq_zero_iff, lor_eq_zero_iff]
  tauto

theorem health_true_eq (hr : healthResult) (g : ProbeGroup) :
    hr.health g true = accureError (hr.selected g) := rfl

theorem health_false_eq (hr : healthResult) (g : ProbeGroup) :
    hr.health g false = accureNoError (hr.selected g) := rfl

theorem selected_GroupStartup (hr : healthResult) : hr.selected GroupStartup = hr.startUp := rfl

theorem selected_GroupLive (hr : healthResult) : hr.selected GroupLive = hr.live := rfl

theorem selected_GroupReady (hr : healthResult) : hr.selected GroupReady = hr.ready := rfl

theorem health_eq_of_selected_eq (hr1 hr2 : healthResult) (g1 g2 : ProbeGroup) (b : Bool)
    (h : hr1.selected g1 = hr2.selected g2) : hr1.health g1 b = hr2.health g2 b := by
  cases b
  · rw [health_false_eq, health_false_eq, h]
  · rw [health_true_eq, health_true_eq, h]

theorem hasNilEntry_eq_any (l : List (Option GoError)) :
    hasNilEntry l = l.any (fun e => e.isNone) := by
  induction l with
  | nil => rfl
  | cons e rest ih => cases e <;> simp [hasNilEntry, ih]

theorem all_isNone_iff_filterMap_nil (l : List (Option GoError)) :
    (l.all fun e => e.isNone) = (l.filterMap id).isEmpty := by
  induction l with
  | nil => rfl
  | cons e rest ih => cases e <;> simp [List.all_cons, List.filterMap_cons, ih]

theorem accureError_eq_querySpecAll (l : List (Option GoError)) :
    accureError l = querySpecAll l := by
  unfold querySpecAll
  rw [all_isNone_iff_filterMap_nil]
  by_cases h : (l.filterMap id).isEmpty
  · simp [accureError, goJoin, h]
  · simp [accureError, goJoin, h]

theorem accureNoError_eq_querySpecAny (l : List (Option GoError)) :
    accureNoError l = querySpecAny l := by
  unfold accureNoError querySpecAny
  rw [hasNilEntry_eq_any]

theorem querySpecAll_eq_none_iff (l : List (Option GoError)) :
    querySpecAll l = none ↔ ∀ e ∈ l, e = none := by
  unfold querySpecAll
  by_cases h : (l.all fun e => e.isNone) = true
  · rw [if_pos h]
    simp only [List.all_eq_true, Option.isNone_iff_eq_none] at h
    exact ⟨fun _ => h, fun _ => rfl⟩
  · rw [if_neg h]
    have hne : ¬((l.filterMap id).isEmpty = true) := by
      rw [← all_isNone_iff_filterMap_nil]
      exact h
    constructor
    · intro hj
      exfalso
      unfold goJoin at hj
      rw [if_neg hne] at hj
      cases hj
    · intro hall
      exfalso
      apply h
      simp only [List.all_eq_true, Option.isNone_iff_eq_none]
      exact hall

theorem add_startUp_eq (hr : healthResult) (res : serviceCheckResult) :
    (hr.add res).startUp =
      if res.target.Groups &&& GroupStartup ≠ 0 then hr.startUp ++ [res.err] else hr.startUp := by
  unfold healthResult.add
  by_cases hS : res.target.Groups &&& GroupStartup ≠ 0 <;>
    by_cases hL : res.target.Groups &&& GroupLive ≠ 0 <;>
      by_cases hR : res.target.Groups &&& GroupReady ≠ 0 <;>
        simp [hS, hL, hR]

theorem add_live_eq (hr : healthResult) (res : serviceCheckResult) :
    (hr.add res).live =
      if res.target.Groups &&& GroupLive ≠ 0 then hr.live ++ [res.err] else hr.live := by
  unfold healthResult.add
  by_cases hS : res.target.Groups &&& GroupStartup ≠ 0 <;>
    by_cases hL : res.target.Groups &&& GroupLive ≠ 0 <;>
      by_cases hR : res.target.Groups &&& GroupReady ≠ 0 <;>
        simp [hS, hL, hR]

theorem add_ready_eq (hr : healthResult) (res : serviceCheckResult) :
    (hr.add res).ready =
      if res.target.Groups &&& GroupReady ≠ 0 then hr.ready ++ [res.err] else hr.ready := by
  unfold healthResult.add
  by_cases hS : res.target.Groups &&& GroupStartup ≠ 0 <;>
    by_cases hL : res.target.Groups &&& GroupLive ≠ 0 <;>
      by_cases hR : res.target.Groups &&& GroupReady ≠ 0 <;>
        simp [hS, hL, hR]

theorem bucketOf_append (B : ProbeGroup) (xs ys : List serviceCheckResult) :
    bucketOf B (xs ++ ys) = bucketOf B xs ++ bucketOf B ys := by
  simp [bucketOf]

theorem bucketOf_cons_skip (B : ProbeGroup) (r : serviceCheckResult)
    (rs : List serviceCheckResult) (h : r.target.Groups &&& B = 0) :
    bucketOf B (r :: rs) = bucketOf B rs := by
  simp [bucketOf, List.filter_cons, h]

theorem foldl_add_startUp (results : List serviceCheckResult) (hr : healthResult) :
    (List.foldl healthResult.add hr results).startUp =
      hr.startUp ++ bucketOf GroupStartup results := by
  induction results generalizing hr with
  | nil => simp [bucketOf]
  | cons r rs ih =>
    rw [List.foldl_cons, ih, add_startUp_eq]
    by_cases h : r.target.Groups &&& GroupStartup = 0
    · simp [bucketOf, List.filter_cons, h]
    · simp [bucketOf, List.filter_cons, h]

theorem foldl_add_live (results : List serviceCheckResult) (hr : healthResult) :
    (List.foldl healthResult.add hr results).live =
      hr.live ++ bucketOf GroupLive results := by
  induction results generalizing hr with
  | nil => simp [bucketOf]
  | cons r rs ih =>
    rw [List.foldl_cons, ih, add_live_eq]
    by_cases h : r.target.Groups &&& GroupLive = 0
    · simp [bucketOf, List.filter_cons, h]
    · simp [bucketOf, List.filter_cons, h]

theorem foldl_add_ready (results : List serviceCheckResult) (hr : healthResult) :
    (List.foldl healthResult.add hr results).ready =
      hr.ready ++ bucketOf GroupReady results := by
  induction results generalizing hr with
  | nil => simp [bucketOf]
  | cons r rs ih =>
    rw [List.foldl_cons, ih, add_ready_eq]
    by_cases h : r.target.Groups &&& GroupReady = 0
    · simp [bucketOf, List.filter_cons, h]
    · simp [bucketOf, List.filter_cons, h]

theorem foldl_add_selected (hr : healthResult) (rs : List serviceCheckResult) (B : ProbeGroup)
    (hB : B = GroupStartup ∨ B = GroupLive ∨ B = GroupReady) :
    (List.foldl healthResult.add hr rs).selected B = hr.selected B ++ bucketOf B rs := by
  rcases hB with rfl | rfl | rfl
  · rw [selected_GroupStartup, selected_GroupStartup, foldl_add_startUp]
  · rw [selected_GroupLive, selected_GroupLive, foldl_add_live]
  · rw [selected_GroupReady, selected_GroupReady, foldl_add_ready]

theorem validate_error_cases (pg : ProbeGroup) (e : GoError)
    (h : ProbeGroup.validate pg = some e) : e = errEmptyGroup ∨ e = errMissGroup := by
  unfold ProbeGroup.validate at h
  by_cases h0 : pg = 0
  · rw [if_pos h0] at h
    exact Or.inl (Option.some.inj h).symm
  · rw [if_neg h0] at h
    by_cases hm : pg &&& AllGroups ≠ pg
    · rw [if_pos hm] at h
      exact Or.inr (Option.some.inj h).symm
    · rw [if_neg hm] at h
      cases h

theorem validateTargets_some_of_invalid (ts : List HealthCheckTarget)
    (h : ∃ t ∈ ts, ProbeGroup.validate t.Groups ≠ none) :
    ∃ e, validateTargets ts = some e ∧ (e = errEmptyGroup ∨ e = errMissGroup) := by
  induction ts with
  | nil =>
    rcases h with ⟨t, ht, _⟩
    cases ht
  | cons t rest ih =>
    unfold validateTargets
    cases hv : ProbeGroup.validate t.Groups with
    | some e => exact ⟨e, rfl, validate_error_cases _ _ hv⟩
    | none =>
      rcases h with ⟨u, hu, hne⟩
      rcases List.mem_cons.mp hu with rfl | hmem
      · exact absurd hv hne
      · exact ih ⟨u, hmem, hne⟩

theorem validateTargets_none_of_valid (ts : List HealthCheckTarget)
    (h : ∀ t ∈ ts, ProbeGroup.validate t.Groups = none) : validateTargets ts = none := by
  induction ts with
  | nil => rfl
  | cons t rest ih =>
    unfold validateTargets
    rw [h t (List.mem_cons_self t rest)]
    exact ih (fun u hu => h u (List.mem_cons_of_mem t hu))

/-- C1: for every snapshot bucket list and policy, with requireAllHealthy
the query is nil exactly when every outcome in the selected bucket is nil
and otherwise the errors.Join of the non-nil outcomes; without it the
query is nil when some outcome in the selected bucket is nil and
otherwise the errors.Join of all the outcomes. -/
theorem queryGroup_aggregation (hr : healthResult) (g : ProbeGroup) (b : Bool) :
    hr.health g b = (if b then querySpecAll (hr.selected g) else querySpecAny (hr.selected g)) ∧
    (hr.health g true = none ↔ ∀ e ∈ hr.selected g, e = none) ∧
    ((∃ e ∈ hr.selected g, e = none) → hr.health g false = none) := by
  refine ⟨?_, ?_, ?_⟩
  · cases b
    · rw [health_false_eq, accureNoError_eq_querySpecAny, if_neg (by simp)]
    · rw [health_true_eq, accureError_eq_querySpecAll, if_pos rfl]
  · rw [health_true_eq, accureError_eq_querySpecAll]
    exact querySpecAll_eq_none_iff _
  · rintro ⟨e, he, rfl⟩
    rw [health_false_eq]
    have hnil : hasNilEntry (hr.selected g) = true := by
      rw [hasNilEntry_eq_any]
      exact List.any_eq_true.mpr ⟨none, he, rfl⟩
    simp [accureNoError, hnil]

theorem queryGroup_aggregation_witness :
    (∃ e ∈ (healthResult.mk [] [none, some "boom"] []).selected GroupLive, e = none) ∧
    (healthResult.mk [] [none, some "boom"] []).health GroupLive false = none :=
  ⟨by decide, (queryGroup_aggregation ⟨[], [none, some "boom"], []⟩ GroupLive false).2.2 (by decide)⟩

theorem newHealthResult_health_ne_none (g : ProbeGroup) (b : Bool)
    (hg : g = GroupStartup ∨ g = GroupLive ∨ g = GroupReady) :
    newHealthResult.health g b ≠ none := by
  rcases hg with rfl | rfl | rfl <;> cases b <;> decide

/-- C2: right after construction each bucket of the snapshot holds
exactly the not-yet-checked sentinel, so querying Startup, Live or Ready
under either policy returns a non-nil error. -/
theorem new_inspector_sentinel (ts : List HealthCheckTarget) (b : Bool) :
    (New ts).data.startUp = [some errNoYetChecked] ∧
    (New ts).data.live = [some errNoYetChecked] ∧
    (New ts).data.ready = [some errNoYetChecked] ∧
    (New ts).CheckGroup GroupStartup b ≠ none ∧
    (New ts).CheckGroup GroupLive b ≠ none ∧
    (New ts).CheckGroup GroupReady b ≠ none :=
  ⟨rfl, rfl, rfl,
   newHealthResult_health_ne_none GroupStartup b (Or.inl rfl),
   newHealthResult_health_ne_none GroupLive b (Or.inr (Or.inl rfl)),
   newHealthResult_health_ne_none GroupReady b (Or.inr (Or.inr rfl))⟩

theorem new_inspector_sentinel_witness :
    (New []).CheckGroup GroupStartup true ≠ none ∧
    (New []).CheckGroup GroupLive true ≠ none ∧
    (New []).CheckGroup GroupReady true ≠ none :=
  ⟨(new_inspector_sentinel [] true).2.2.2.1,
   (new_inspector_sentinel [] true).2.2.2.2.1,
   (new_inspector_sentinel [] true).2.2.2.2.2⟩

/-- C3 counterexample: after one poll cycle over a registry whose only
target belongs to the Ready group, the Live bucket of the published
snapshot is empty, holds no sentinel, and querying Live returns nil
under both policies, refuting the claim that every reachable snapshot
keeps the sentinel in an empty bucket. -/
theorem poll_empty_bucket_counterexample :
    ((New [readyTarget]).check).data.live = [] ∧
    some errNoYetChecked ∉ ((New [readyTarget]).check).data.live ∧
    ((New [readyTarget]).check).CheckGroup GroupLive true = none ∧
    ((New [readyTarget]).check).CheckGroup GroupLive false = none := by
  decide

/-- C3 amended: the sentinel is guaranteed only in the freshly
constructed snapshot, where every query on Startup, Live or Ready is a
non-nil error; a poll cycle rebuilds the snapshot from empty buckets,
so after a poll a bucket whose group no target covers is empty and a
query on it returns nil under both policies. -/
theorem sentinel_only_before_first_poll (ts : List HealthCheckTarget) (B : ProbeGroup) (b : Bool)
    (hB : B = GroupStartup ∨ B = GroupLive ∨ B = GroupReady)
    (hcov : ∀ t ∈ ts, t.Groups &&& B = 0) :
    (New ts).data.selected B = [some errNoYetChecked] ∧
    (New ts).CheckGroup B b ≠ none ∧
    ((New ts).check).data.selected B = [] ∧
    ((New ts).check).CheckGroup B b = none := by
  have hsel0 : (New ts).data.selected B = [some errNoYetChecked] := by
    rcases hB with rfl | rfl | rfl <;> rfl
  have hbucket : bucketOf B (ts.map fun t => serviceCheckResult.mk t t.Service.healthErr) = [] := by
    unfold bucketOf
    rw [List.map_eq_nil_iff, List.filter_eq_nil_iff]
    intro r hrmem
    rcases List.mem_map.mp hrmem with ⟨t, ht, rfl⟩
    simp [hcov t ht]
  have hsel1 : ((New ts).check).data.selected B = [] := by
    show (checkMerge _).selected B = []
    unfold checkMerge
    rw [foldl_add_selected _ _ B hB, show (New ts).targets = ts from rfl, hbucket]
    rcases hB with rfl | rfl | rfl <;> rfl
  refine ⟨hsel0, ?_, hsel1, ?_⟩
  · show (New ts).data.health B b ≠ none
    cases b
    · rw [health_false_eq, hsel0]
      decide
    · rw [health_true_eq, hsel0]
      decide
  · show ((New ts).check).data.health B b = none
    cases b
    · rw [health_false_eq, hsel1]
      rfl
    · rw [health_true_eq, hsel1]
      rfl

theorem sentinel_only_before_first_poll_witness :
    (∀ t ∈ [readyTarget], t.Groups &&& GroupLive = 0) ∧
    ((New [readyTarget]).check).CheckGroup GroupLive true = none :=
  ⟨by decide,
   (sentinel_only_before_first_poll [readyTarget] GroupLive true
     (Or.inr (Or.inl rfl)) (by decide)).2.2.2⟩

/-- C4: on a combined mask the query evaluates exactly one bucket, with
Live taking precedence over Ready, which takes precedence over Startup:
the result coincides with the query at the single priority group. -/
theorem queryGroup_priority (hr : healthResult) (g : ProbeGroup) (b : Bool)
    (h : g &&& (GroupLive ||| GroupReady ||| GroupStartup) ≠ 0) :
    hr.health g b =
      (if g &&& GroupLive ≠ 0 then hr.health GroupLive b
       else if g &&& GroupReady ≠ 0 then hr.health GroupReady b
       else hr.health GroupStartup b) := by
  by_cases hL : g &&& GroupLive ≠ 0
  · rw [if_pos hL]
    refine health_eq_of_selected_eq _ _ _ _ b ?_
    rw [selected_GroupLive]
    unfold healthResult.selected
    rw [if_pos hL]
  · rw [if_neg hL]
    by_cases hR : g &&& GroupReady ≠ 0
    · rw [if_pos hR]
      refine health_eq_of_selected_eq _ _ _ _ b ?_
      rw [selected_GroupReady]
      unfold healthResult.selected
      rw [if_neg hL, if_pos hR]
    · rw [if_neg hR]
      have hS : g &&& GroupStartup ≠ 0 := by
        intro hS0
        exact h ((and_or3_eq_zero_iff g GroupLive GroupReady GroupStartup).mpr
          ⟨not_not.mp hL, not_not.mp hR, hS0⟩)
      refine health_eq_of_selected_eq _ _ _ _ b ?_
      rw [selected_GroupStartup]
      unfold healthResult.selected
      rw [if_neg hL, if_neg hR, if_pos hS]

theorem queryGroup_priority_witness :
    ((10 : ProbeGroup) &&& (GroupLive ||| GroupReady ||| GroupStartup) ≠ 0) ∧
    newHealthResult.health 10 false =
      (if (10 : ProbeGroup) &&& GroupLive ≠ 0 then newHealthResult.health GroupLive false
       else if (10 : ProbeGroup) &&& GroupReady ≠ 0 then newHealthResult.health GroupReady false
       else newHealthResult.health GroupStartup false) :=
  ⟨by decide, queryGroup_priority newHealthResult 10 false (by decide)⟩

/-- C5: a merged outcome is appended to exactly the buckets whose bit is
set in the originating target mask, and a mask disjoint from the three
tracked bits (such as Common alone) leaves the snapshot unchanged. -/
theorem add_appends_by_mask (hr : healthResult) (res : serviceCheckResult) :
    (hr.add res).startUp =
      (if res.target.Groups &&& GroupStartup ≠ 0 then hr.startUp ++ [res.err] else hr.startUp) ∧
    (hr.add res).live =
      (if res.target.Groups &&& GroupLive ≠ 0 then hr.live ++ [res.err] else hr.live) ∧
    (hr.add res).ready =
      (if res.target.Groups &&& GroupReady ≠ 0 then hr.ready ++ [res.err] else hr.ready) ∧
    (res.target.Groups &&& (GroupStartup ||| GroupLive ||| GroupReady) = 0 → hr.add res = hr) := by
  refine ⟨add_startUp_eq hr res, add_live_eq hr res, add_ready_eq hr res, ?_⟩
  intro h
  obtain ⟨hS, hL, hR⟩ :=
    (and_or3_eq_zero_iff res.target.Groups GroupStartup GroupLive GroupReady).mp h
  unfold healthResult.add
  simp [hS, hL, hR]

theorem add_appends_by_mask_witness :
    ((HealthCheckTarget.mk ⟨none, "kafka", "host-1"⟩ GroupCommon).Groups &&&
      (GroupStartup ||| GroupLive ||| GroupReady) = 0) ∧
    newHealthResult.add
      (serviceCheckResult.mk (HealthCheckTarget.mk ⟨none, "kafka", "host-1"⟩ GroupCommon) none) =
      newHealthResult :=
  ⟨by decide,
   (add_appends_by_mask newHealthResult
     (serviceCheckResult.mk (HealthCheckTarget.mk ⟨none, "kafka", "host-1"⟩ GroupCommon) none)).2.2.2
     (by decide)⟩

/-- C6: validate succeeds on every non-zero subset of the four defined
bits, fails with the empty-group error on zero, and fails with the
invalid-group error on any mask with a bit outside the four flags. -/
theorem validate_spec (m : ProbeGroup) :
    (m ≠ 0 → m &&& (GroupCommon ||| GroupStartup ||| GroupLive ||| GroupReady) = m →
      ProbeGroup.validate m = none) ∧
    ProbeGroup.validate 0 = some errEmptyGroup ∧
    (m &&& (GroupCommon ||| GroupStartup ||| GroupLive ||| GroupReady) ≠ m →
      ProbeGroup.validate m = some errMissGroup) := by
  refine ⟨?_, rfl, ?_⟩
  · intro h0 hsub
    simp [ProbeGroup.validate, AllGroups, h0, hsub]
  · intro hsub
    have h0 : m ≠ 0 := by
      intro h
      subst h
      apply hsub
      simp
    simp [ProbeGroup.validate, AllGroups, h0, hsub]

theorem validate_spec_witness :
    ((6 : ProbeGroup) ≠ 0 ∧
      (6 : ProbeGroup) &&& (GroupCommon ||| GroupStartup ||| GroupLive ||| GroupReady) = 6 ∧
      ProbeGroup.validate 6 = none) ∧
    ((16 : ProbeGroup) &&& (GroupCommon ||| GroupStartup ||| GroupLive ||| GroupReady) ≠ 16 ∧
      ProbeGroup.validate 16 = some errMissGroup) :=
  ⟨⟨by decide, by decide, (validate_spec 6).1 (by decide) (by decide)⟩,
   ⟨by decide, (validate_spec 16).2.2 (by decide)⟩⟩

/-- C7: the replace-all-targets option fails with the missing-targets
error on an empty list, fails with the propagated empty-group or
invalid-group error when some target mask is invalid, leaving the
inspector unchanged in both failure cases, and on success replaces the
whole registry with the supplied targets. -/
theorem withTargets_spec (ts : List HealthCheckTarget) (i : Inspector) :
    (ts = [] → WithTargets ts i = (i, some errMissTargets)) ∧
    ((∃ t ∈ ts, ProbeGroup.validate t.Groups ≠ none) →
      (WithTargets ts i).1 = i ∧
      ∃ e, (WithTargets ts i).2 = some e ∧ (e = errEmptyGroup ∨ e = errMissGroup)) ∧
    (ts ≠ [] → (∀ t ∈ ts, ProbeGroup.validate t.Groups = none) →
      WithTargets ts i = ({ i with targets := ts }, none)) := by
  refine ⟨?_, ?_, ?_⟩
  · rintro rfl
    rfl
  · intro hex
    obtain ⟨e, he, hcase⟩ := validateTargets_some_of_invalid ts hex
    cases ts with
    | nil =>
      rcases hex with ⟨t, ht, _⟩
      cases ht
    | cons t rest =>
      have hw : WithTargets (t :: rest) i = (i, some e) := by
        unfold WithTargets
        rw [if_neg (by simp), he]
      rw [hw]
      exact ⟨rfl, e, rfl, hcase⟩
  · intro hne hall
    have hv := validateTargets_none_of_valid ts hall
    cases ts with
    | nil => exact absurd rfl hne
    | cons t rest =>
      unfold WithTargets
      rw [if_neg (by simp), hv]

theorem withTargets_spec_witness :
    (∃ t ∈ [HealthCheckTarget.mk ⟨none, "a", "b"⟩ 0], ProbeGroup.validate t.Groups ≠ none) ∧
    (WithTargets [HealthCheckTarget.mk ⟨none, "a", "b"⟩ 0] (New [])).1 = New [] ∧
    ∃ e, (WithTargets [HealthCheckTarget.mk ⟨none, "a", "b"⟩ 0] (New [])).2 = some e ∧
      (e = errEmptyGroup ∨ e = errMissGroup) :=
  ⟨by decide,
   (withTargets_spec [HealthCheckTarget.mk ⟨none, "a", "b"⟩ 0] (New [])).2.1 (by decide)⟩

/-- C8: a target whose mask is disjoint from a tracked group B never
influences the query for B: dropping its result from the merge leaves
both the bucket for B and the query outcome for B unchanged, under
either policy. -/
theorem group_isolation (hr : healthResult) (res : serviceCheckResult)
    (rs₁ rs₂ : List serviceCheckResult) (B : ProbeGroup) (b : Bool)
    (hB : B = GroupStartup ∨ B = GroupLive ∨ B = GroupReady)
    (hdisj : res.target.Groups &&& B = 0) :
    (List.foldl healthResult.add hr (rs₁ ++ res :: rs₂)).selected B =
      (List.foldl healthResult.add hr (rs₁ ++ rs₂)).selected B ∧
    (List.foldl healthResult.add hr (rs₁ ++ res :: rs₂)).health B b =
      (List.foldl healthResult.add hr (rs₁ ++ rs₂)).health B b := by
  have hbuck : (List.foldl healthResult.add hr (rs₁ ++ res :: rs₂)).selected B =
      (List.foldl healthResult.add hr (rs₁ ++ rs₂)).selected B := by
    rw [foldl_add_selected _ _ B hB, foldl_add_selected _ _ B hB,
      bucketOf_append, bucketOf_append, bucketOf_cons_skip B res rs₂ hdisj]
  exact ⟨hbuck, health_eq_of_selected_eq _ _ _ _ b hbuck⟩

theorem group_isolation_witness :
    ((HealthCheckTarget.mk ⟨some "x", "s", "d"⟩ GroupReady).Groups &&& GroupLive = 0) ∧
    (List.foldl healthResult.add emptyHealthResult
        [serviceCheckResult.mk (HealthCheckTarget.mk ⟨some "x", "s", "d"⟩ GroupReady) (some "x")]).health
        GroupLive true =
      (List.foldl healthResult.add emptyHealthResult []).health GroupLive true :=
  ⟨by decide,
   (group_isolation emptyHealthResult
     (serviceCheckResult.mk (HealthCheckTarget.mk ⟨some "x", "s", "d"⟩ GroupReady) (some "x"))
     [] [] GroupLive true (Or.inr (Or.inl rfl)) (by decide)).2⟩

/-- C9: the handler factory writes status 503 with the formatter body
for nil when the group query succeeds, and status 200 with the
formatter body for the error when the query fails; the default
formatter yields OK for nil and Unhealthy for an error. -/
theorem healthHandler_status (i : Inspector) (g : ProbeGroup) (b : Bool)
    (f : Option GoError → String) :
    StatusOK = 200 ∧ StatusServiceUnavailable = 503 ∧
    (i.CheckGroup g b = none →
      i.HealthHandler g b none = (StatusServiceUnavailable, "OK") ∧
      i.HealthHandler g b (some f) = (StatusServiceUnavailable, f none)) ∧
    (i.CheckGroup g b ≠ none →
      i.HealthHandler g b none = (StatusOK, "Unhealthy") ∧
      i.HealthHandler g b (some f) = (StatusOK, f (i.CheckGroup g b))) := by
  refine ⟨rfl, rfl, ?_, ?_⟩
  · intro h
    constructor
    · simp [Inspector.HealthHandler, h, DefResponseProcessor]
    · simp [Inspector.HealthHandler, h]
  · intro h
    rcases hE : i.CheckGroup g b with _ | v
    · exact absurd hE h
    · constructor
      · simp [Inspector.HealthHandler, hE, DefResponseProcessor]
      · simp [Inspector.HealthHandler, hE]

theorem healthHandler_status_witness :
    ((New []).CheckGroup GroupCommon true = none ∧
      (New []).HealthHandler GroupCommon true none = (StatusServiceUnavailable, "OK")) ∧
    ((New []).CheckGroup GroupStartup true ≠ none ∧
      (New []).HealthHandler GroupStartup true none = (StatusOK, "Unhealthy")) :=
  ⟨⟨by decide,
    ((healthHandler_status (New []) GroupCommon true DefResponseProcessor).2.2.1 (by decide)).1⟩,
   ⟨by decide,
    ((healthHandler_status (New []) GroupStartup true DefResponseProcessor).2.2.2 (by decide)).1⟩⟩

/-- C10: a query mask that sets none of the Live, Ready and Startup
bits selects no bucket, so CheckGroup returns nil under both policies,
with no validation of the mask at query time. -/
theorem queryGroup_unselected_mask (i : Inspector) (g : ProbeGroup) (b : Bool)
    (h : g &&& (GroupLive ||| GroupReady ||| GroupStartup) = 0) :
    i.CheckGroup g b = none := by
  obtain ⟨hL, hR, hS⟩ := (and_or3_eq_zero_iff g GroupLive GroupReady GroupStartup).mp h
  show i.data.health g b = none
  have hsel : i.data.selected g = [] := by
    unfold healthResult.selected
    rw [if_neg (fun hc => hc hL), if_neg (fun hc => hc hR), if_neg (fun hc => hc hS)]
  cases b
  · rw [health_false_eq, hsel]
    rfl
  · rw [health_true_eq, hsel]
    rfl

theorem queryGroup_unselected_mask_witness :
    ((GroupCommon &&& (GroupLive ||| GroupReady ||| GroupStartup) = 0) ∧
      (New []).CheckGroup GroupCommon true = none) ∧
    (((16 : ProbeGroup) &&& (GroupLive ||| GroupReady ||| GroupStartup) = 0) ∧
      (New []).CheckGroup 16 false = none) :=
  ⟨⟨by decide, queryGroup_unselected_mask (New []) GroupCommon true (by decide)⟩,
   ⟨by decide, queryGroup_unselected_mask (New []) 16 false (by decide)⟩⟩

end Healthz
